import Mathlib

/-!
Verification of the OCI Compute MCP server (`oci-compute-mcp-server.py`).

The Python module exposes five tool operations over OCI identity/compute
backends.  We embed each operation as a total Lean function over an explicit
backend model:

* backend calls that may raise in Python are modelled as `Except String`
  results; the per-operation `try/except` boundary becomes a `match` that
  converts any `Except.error` into the uniform `{"error": ...}` JSON object;
* `json.dumps` output is modelled by the `Json` inductive below (field order
  is the Python dict insertion order);
* `compute_instance_action` additionally returns the ordered trace of backend
  calls it dispatched (`BackendEvent` list), so that claims about the number
  and order of lifecycle-action dispatches are statable;
* Python `str.upper()` / `str.lower()` are modelled by `pyUpper` / `pyLower`
  (ASCII case mapping, provably the library `String.toUpper`/`String.toLower`),
  and `instance_id.split('.')` by `pySplit`, which keeps empty segments
  exactly as Python `split` does.
-/

/-- JSON values as produced by `json.dumps`: object fields keep insertion
order.  Numbers and other payloads that the server merely forwards from the
SDK are carried opaquely (see `ShapeConfig`). -/
inductive Json where
  | null : Json
  | str : String → Json
  | arr : List Json → Json
  | obj : List (String × Json) → Json

/-- First value bound to key `k` when `j` is an object, as Python dict access
after `json.dumps`/`loads` round-trip. -/
def jsonField (j : Json) (k : String) : Option Json :=
  match j with
  | Json.obj fs => fs.lookup k
  | _ => none

/-- The uniform error shape `{"error": "<message>"}` every operation returns
on failure. -/
def mkError (msg : String) : Json :=
  Json.obj [("error", Json.str msg)]

/-- Split a character list at every occurrence of `sep`, keeping empty
segments, as Python `str.split(sep)` does. -/
def splitChar (sep : Char) : List Char → List (List Char)
  | [] => [[]]
  | c :: rest =>
    match splitChar sep rest with
    | [] => [[]]
    | grp :: gs => if c = sep then [] :: grp :: gs else (c :: grp) :: gs

/-- Python `s.split(sep)` for a one-character separator (empty segments
preserved, exactly as in Python). -/
def pySplit (s : String) (sep : Char) : List String :=
  (splitChar sep s.data).map String.mk

/-- Python `str.upper()`, ASCII case mapping; agrees with `String.toUpper`
(see `pyUpper_eq_toUpper`), stated structurally so it computes by `rfl`. -/
def pyUpper (s : String) : String := String.mk (s.data.map Char.toUpper)

/-- Python `str.lower()`, ASCII case mapping; agrees with `String.toLower`
(see `pyLower_eq_toLower`). -/
def pyLower (s : String) : String := String.mk (s.data.map Char.toLower)

/-- An OCI compartment as consumed by this server (fields projected by
`list_compartments`; `time_created` already stringified). -/
structure Compartment where
  id : String
  name : String
  description : String
  lifecycle_state : String
  time_created : String

/-- `instance.shape_config` payload; `ocpus` and `memory_in_gbs` are numeric
SDK values the server forwards verbatim, carried opaquely as `Json`. -/
structure ShapeConfig where
  ocpus : Json
  memory_in_gbs : Json

/-- `instance.launch_options` payload. -/
structure LaunchOptions where
  boot_volume_type : String
  firmware : String
  network_type : String

/-- An OCI compute instance as consumed by this server: exactly the attributes
the Python module reads (`time_created` already stringified; `metadata` and
`extended_metadata` forwarded verbatim as `Json`). -/
structure Instance where
  id : String
  display_name : String
  lifecycle_state : String
  availability_domain : String
  shape : String
  shape_config : Option ShapeConfig
  time_created : String
  compartment_id : String
  region : String
  fault_domain : String
  image_id : String
  launch_mode : String
  launch_options : Option LaunchOptions
  metadata : Json
  extended_metadata : Json

/-- Identity backend model.  `pages` is the finite sequence of pages the
paginated `list_compartments` SDK call yields when followed via `next_page`
until exhaustion (`Except.error` models any page call raising);
`getCompartment` models `identity_client.get_compartment`. -/
structure IdentityBackend where
  pages : Except String (List (List Compartment))
  getCompartment : String → Except String Compartment

/-- Compute backend model; the first `String` argument of each call is the
region of the client the call is issued on. -/
structure ComputeBackend where
  listInstances : String → String → Except String (List Instance)
  getInstance : String → String → Except String Instance
  instanceAction : String → String → String → Except String Unit

/-- One backend call dispatched by `compute_instance_action`, recorded in
dispatch order: `getInstance region instance_id` for the lifecycle-state
query, `instanceAction region instance_id action` for a lifecycle action. -/
inductive BackendEvent where
  | getInstance : String → String → BackendEvent
  | instanceAction : String → String → String → BackendEvent
deriving DecidableEq

/-- The actions of the lifecycle-action calls in a trace, in dispatch
order. -/
def issuedActions : List BackendEvent → List String
  | [] => []
  | BackendEvent.instanceAction _ _ a :: rest => a :: issuedActions rest
  | BackendEvent.getInstance _ _ :: rest => issuedActions rest

/-- The `while True` pagination loop of `get_all_compartments`: successive
`response.data` lists are accumulated in order. -/
def gatherPages : List (List Compartment) → List Compartment
  | [] => []
  | p :: rest => p ++ gatherPages rest

/-- `get_all_compartments`: all paginated compartments, then the root
(tenancy) compartment fetched via `get_compartment` appended last.  An
`Except.error` is an exception propagating to the caller. -/
def get_all_compartments (be : IdentityBackend) (tenancy_id : String) :
    Except String (List Compartment) := do
  let pages ← be.pages
  let root ← be.getCompartment tenancy_id
  pure (gatherPages pages ++ [root])

/-- `get_compartment_by_name`: first compartment whose `name` matches the
argument case-insensitively (`.lower()` on both sides), `none` when no
match. -/
def get_compartment_by_name (be : IdentityBackend) (tenancy_id : String)
    (compartment_name : String) : Except String (Option Compartment) := do
  let compartments ← get_all_compartments be tenancy_id
  pure (compartments.find? fun c => pyLower c.name == pyLower compartment_name)

/-- Projection of a compartment into the JSON fields `list_compartments`
emits. -/
def compartmentJson (c : Compartment) : Json :=
  Json.obj [("id", Json.str c.id),
            ("name", Json.str c.name),
            ("description", Json.str c.description),
            ("lifecycle_state", Json.str c.lifecycle_state),
            ("time_created", Json.str c.time_created)]

/-- Tool `list_compartments`. -/
def list_compartments (be : IdentityBackend) (tenancy_id : String) : Json :=
  match get_all_compartments be tenancy_id with
  | Except.ok compartments => Json.arr (compartments.map compartmentJson)
  | Except.error e => mkError ("Failed to list compartments: " ++ e)

/-- The region of the compute client an operation uses: the module-level
client (process region `region_id`) when the `region` argument is falsy
(`None` or `""`, Python `if region:`), else a temporary client on the given
region. -/
def clientRegion (region : Option String) (region_id : String) : String :=
  match region with
  | some r => if r = "" then region_id else r
  | none => region_id

/-- Projection of an instance into the JSON fields `list_compute_instances`
emits. -/
def instanceSummaryJson (i : Instance) : Json :=
  Json.obj [("id", Json.str i.id),
            ("display_name", Json.str i.display_name),
            ("lifecycle_state", Json.str i.lifecycle_state),
            ("availability_domain", Json.str i.availability_domain),
            ("shape", Json.str i.shape),
            ("time_created", Json.str i.time_created),
            ("compartment_id", Json.str i.compartment_id)]

/-- Tool `list_compute_instances`. -/
def list_compute_instances (ibe : IdentityBackend) (cbe : ComputeBackend)
    (tenancy_id region_id : String) (compartment_name : String)
    (region : Option String) : Json :=
  match get_compartment_by_name ibe tenancy_id compartment_name with
  | Except.error e => mkError ("Failed to list compute instances: " ++ e)
  | Except.ok none =>
      mkError ("Compartment '" ++ compartment_name ++
        "' not found. Use list_compartments() to see available compartments.")
  | Except.ok (some compartment) =>
      match cbe.listInstances (clientRegion region region_id) compartment.id with
      | Except.error e => mkError ("Failed to list compute instances: " ++ e)
      | Except.ok instances => Json.arr (instances.map instanceSummaryJson)

/-- Inner ternaries of the `shape_config` projection in `get_compute_instance`
(the outer guard already ensures presence). -/
def shapeConfigJson : Option ShapeConfig → Json
  | none => Json.null
  | some sc => Json.obj [("ocpus", sc.ocpus), ("memory_in_gbs", sc.memory_in_gbs)]

/-- `launch_options` projection in `get_compute_instance`. -/
def launchOptionsJson : Option LaunchOptions → Json
  | none => Json.null
  | some lo => Json.obj [("boot_volume_type", Json.str lo.boot_volume_type),
                         ("firmware", Json.str lo.firmware),
                         ("network_type", Json.str lo.network_type)]

/-- Projection of an instance into the detailed JSON `get_compute_instance`
emits. -/
def instanceDetailJson (i : Instance) : Json :=
  Json.obj [("id", Json.str i.id),
            ("display_name", Json.str i.display_name),
            ("lifecycle_state", Json.str i.lifecycle_state),
            ("availability_domain", Json.str i.availability_domain),
            ("shape", Json.str i.shape),
            ("shape_config", shapeConfigJson i.shape_config),
            ("time_created", Json.str i.time_created),
            ("compartment_id", Json.str i.compartment_id),
            ("region", Json.str i.region),
            ("fault_domain", Json.str i.fault_domain),
            ("image_id", Json.str i.image_id),
            ("launch_mode", Json.str i.launch_mode),
            ("launch_options", launchOptionsJson i.launch_options),
            ("metadata", i.metadata),
            ("extended_metadata", i.extended_metadata)]

/-- Tool `get_compute_instance`. -/
def get_compute_instance (cbe : ComputeBackend) (region_id : String)
    (instance_id : String) (region : Option String) : Json :=
  match cbe.getInstance (clientRegion region region_id) instance_id with
  | Except.error e => mkError ("Failed to get compute instance: " ++ e)
  | Except.ok inst => instanceDetailJson inst

/-- Tool `get_compute_instance_by_name`: resolve the compartment by name,
list its instances, return the detailed JSON of the first instance whose
`display_name` matches case-insensitively. -/
def get_compute_instance_by_name (ibe : IdentityBackend) (cbe : ComputeBackend)
    (tenancy_id region_id : String) (instance_name compartment_name : String)
    (region : Option String) : Json :=
  match get_compartment_by_name ibe tenancy_id compartment_name with
  | Except.error e => mkError ("Failed to get compute instance by name: " ++ e)
  | Except.ok none =>
      mkError ("Compartment '" ++ compartment_name ++
        "' not found. Use list_compartments() to see available compartments.")
  | Except.ok (some compartment) =>
      match cbe.listInstances (clientRegion region region_id) compartment.id with
      | Except.error e =>
          mkError ("Failed to get compute instance by name: " ++ e)
      | Except.ok instances =>
          match instances.find?
              (fun i => pyLower i.display_name == pyLower instance_name) with
          | some inst => get_compute_instance cbe region_id inst.id region
          | none =>
              mkError ("Instance '" ++ instance_name ++
                "' not found in compartment '" ++ compartment_name ++ "'")

/-- Lines 224-228: when the `region` argument is falsy, extract the region as
`instance_id.split('.')[3]`; `none` is the `IndexError` path. -/
def resolveRegion (region : Option String) (instance_id : String) :
    Option String :=
  match region with
  | some r => if r = "" then (pySplit instance_id '.')[3]? else some r
  | none => (pySplit instance_id '.')[3]?

/-- `valid_actions` list of `compute_instance_action`. -/
def valid_actions : List String := ["START", "STOP", "RESET"]

/-- Error object of the outer `except` of `compute_instance_action`. -/
def actionFailedJson (e : String) : Json :=
  mkError ("Failed to perform instance action: " ++ e)

/-- Tool `compute_instance_action`.  Returns the JSON reply paired with the
ordered trace of backend calls dispatched on the regional client.  Every
`Except.error` from a backend call is the Python exception reaching the outer
`except` after the call was already issued, so the call stays in the trace. -/
def compute_instance_action (cbe : ComputeBackend) (instance_id : String)
    (action : String) (region : Option String) : Json × List BackendEvent :=
  match resolveRegion region instance_id with
  | none =>
      (mkError "Invalid instance_id format. Cannot extract region.", [])
  | some r =>
    let action := pyUpper action
    if action ∈ valid_actions then
      match cbe.getInstance r instance_id with
      | Except.error e => (actionFailedJson e, [BackendEvent.getInstance r instance_id])
      | Except.ok inst =>
        let current_state := inst.lifecycle_state
        let q := BackendEvent.getInstance r instance_id
        let result := [("instance_id", Json.str instance_id),
                       ("instance_name", Json.str inst.display_name),
                       ("action_requested", Json.str action),
                       ("previous_state", Json.str current_state)]
        if action = "START" then
          if current_state = "STOPPED" then
            match cbe.instanceAction r instance_id "START" with
            | Except.error e =>
                (actionFailedJson e, [q, BackendEvent.instanceAction r instance_id "START"])
            | Except.ok _ =>
                (Json.obj (result ++ [("status", Json.str "Action initiated"),
                                      ("message", Json.str "Instance start initiated")]),
                 [q, BackendEvent.instanceAction r instance_id "START"])
          else
            (Json.obj (result ++ [("status", Json.str "No action needed"),
               ("message", Json.str ("Instance is already in state: " ++ current_state))]),
             [q])
        else if action = "STOP" then
          if current_state = "RUNNING" then
            match cbe.instanceAction r instance_id "STOP" with
            | Except.error e =>
                (actionFailedJson e, [q, BackendEvent.instanceAction r instance_id "STOP"])
            | Except.ok _ =>
                (Json.obj (result ++ [("status", Json.str "Action initiated"),
                                      ("message", Json.str "Instance stop initiated")]),
                 [q, BackendEvent.instanceAction r instance_id "STOP"])
          else
            (Json.obj (result ++ [("status", Json.str "No action needed"),
               ("message", Json.str ("Instance is already in state: " ++ current_state))]),
             [q])
        else if action = "RESET" then
          if current_state = "RUNNING" ∨ current_state = "STOPPED" then
            if current_state = "RUNNING" then
              match cbe.instanceAction r instance_id "STOP" with
              | Except.error e =>
                  (actionFailedJson e, [q, BackendEvent.instanceAction r instance_id "STOP"])
              | Except.ok _ =>
                match cbe.instanceAction r instance_id "START" with
                | Except.error e =>
                    (actionFailedJson e,
                     [q, BackendEvent.instanceAction r instance_id "STOP",
                      BackendEvent.instanceAction r instance_id "START"])
                | Except.ok _ =>
                    (Json.obj (result ++
                        [("message", Json.str "Instance reset initiated (stop then start)"),
                         ("status", Json.str "Action initiated")]),
                     [q, BackendEvent.instanceAction r instance_id "STOP",
                      BackendEvent.instanceAction r instance_id "START"])
            else
              match cbe.instanceAction r instance_id "START" with
              | Except.error e =>
                  (actionFailedJson e, [q, BackendEvent.instanceAction r instance_id "START"])
              | Except.ok _ =>
                  (Json.obj (result ++
                      [("message", Json.str "Instance start initiated (was already stopped)"),
                       ("status", Json.str "Action initiated")]),
                   [q, BackendEvent.instanceAction r instance_id "START"])
          else
            (Json.obj (result ++ [("status", Json.str "Cannot reset"),
               ("message", Json.str ("Cannot reset instance in state: " ++ current_state))]),
             [q])
        else
          (Json.obj result, [q])
    else
      (mkError ("Invalid action '" ++ action ++
        "'. Valid actions are: " ++ String.intercalate ", " valid_actions), [])

/-- A concrete compute instance used to instantiate universally quantified
theorems on closed inputs. -/
def demoInstance (state : String) : Instance :=
  { id := "ocid1.instance.oc1.iad.abc123", display_name := "demo-instance",
    lifecycle_state := state, availability_domain := "AD-1",
    shape := "VM.Standard2.1", shape_config := none,
    time_created := "2025-01-01 00:00:00",
    compartment_id := "ocid1.compartment.oc1..c1",
    region := "iad", fault_domain := "FD-1",
    image_id := "ocid1.image.oc1.iad.img",
    launch_mode := "NATIVE", launch_options := none,
    metadata := Json.null, extended_metadata := Json.null }

/-- A concrete compute backend whose instance is in the given lifecycle state
and whose calls all succeed. -/
def demoBackend (state : String) : ComputeBackend :=
  { listInstances := fun _ _ => Except.ok [demoInstance state],
    getInstance := fun _ _ => Except.ok (demoInstance state),
    instanceAction := fun _ _ _ => Except.ok () }

/-- A concrete compute backend whose lifecycle-state query fails. -/
def demoFailingBackend : ComputeBackend :=
  { listInstances := fun _ _ => Except.error "ServiceError 404",
    getInstance := fun _ _ => Except.error "ServiceError 404",
    instanceAction := fun _ _ _ => Except.error "ServiceError 404" }

/-- A concrete compartment. -/
def demoCompartment : Compartment :=
  { id := "ocid1.compartment.oc1..c1", name := "Dev-Team",
    description := "dev", lifecycle_state := "ACTIVE",
    time_created := "2024-01-01 00:00:00" }

/-- The root (tenancy) compartment of the demo identity backend. -/
def demoRoot : Compartment :=
  { id := "ocid1.tenancy.oc1..t1", name := "RootTenancy",
    description := "root", lifecycle_state := "ACTIVE",
    time_created := "2020-01-01 00:00:00" }

/-- A concrete identity backend: two pages of compartments, root fetch
succeeding. -/
def demoIdentity : IdentityBackend :=
  { pages := Except.ok [[demoCompartment], []],
    getCompartment := fun _ => Except.ok demoRoot }

/-- A tool reply in the shape the server's JSON contract allows: either the
uniform error object `{"error": msg}`, or a JSON array, or a JSON object
with no "error" key.  Every reply is a `Json` value, i.e. valid JSON. -/
def validToolOutput (j : Json) : Prop :=
  (∃ msg, j = mkError msg) ∨
  (∃ items, j = Json.arr items) ∨
  (∃ fields, j = Json.obj fields ∧ fields.lookup "error" = none)

/-- `pyUpper` is the library `String.toUpper`. -/
theorem pyUpper_eq_toUpper (s : String) : pyUpper s = s.toUpper := by
  rw [String.toUpper, String.map_eq]; rfl

/-- `pyLower` is the library `String.toLower`. -/
theorem pyLower_eq_toLower (s : String) : pyLower s = s.toLower := by
  rw [String.toLower, String.map_eq]; rfl

/-- `Char.toUpper` is idempotent: an uppercased ASCII letter is outside the
lowercase range. -/
theorem charToUpper_idem (c : Char) : c.toUpper.toUpper = c.toUpper := by
  unfold Char.toUpper
  by_cases h : c.toNat ≥ 97 ∧ c.toNat ≤ 122
  · rw [if_pos h]
    have hv : Nat.isValidChar (c.toNat - 32) := Or.inl (by omega)
    have ht : (Char.ofNat (c.toNat - 32)).toNat = c.toNat - 32 := by
      rw [Char.ofNat, dif_pos hv]
      simp [Char.ofNatAux, Char.toNat, UInt32.toNat, BitVec.toNat_ofNatLt]
    rw [if_neg]
    rw [ht]
    omega
  · rw [if_neg h, if_neg h]

/-- `pyUpper` (Python `str.upper()`) is idempotent. -/
theorem pyUpper_idem (s : String) : pyUpper (pyUpper s) = pyUpper s := by
  unfold pyUpper
  simp only [List.map_map]
  exact congrArg String.mk (List.map_congr_left fun c _ => charToUpper_idem c)

/-- C1: for observed state RUNNING and action RESET, exactly two
lifecycle-action calls are dispatched, in order STOP then START, with no
further backend round trip between them (the trace is literally the state
query followed by the two dispatches, so START is fired without waiting for
STOP's completion); for observed state STOPPED and action RESET, exactly one
lifecycle-action call (START) is dispatched; both replies carry
status "Action initiated". -/
theorem reset_running_stop_then_start :
    (∀ (cbe : ComputeBackend) (instance_id : String) (region : Option String)
        (r : String) (inst : Instance),
      resolveRegion region instance_id = some r →
      cbe.getInstance r instance_id = Except.ok inst →
      inst.lifecycle_state = "RUNNING" →
      cbe.instanceAction r instance_id "STOP" = Except.ok () →
      cbe.instanceAction r instance_id "START" = Except.ok () →
      (compute_instance_action cbe instance_id "RESET" region).2 =
        [BackendEvent.getInstance r instance_id,
         BackendEvent.instanceAction r instance_id "STOP",
         BackendEvent.instanceAction r instance_id "START"] ∧
      issuedActions (compute_instance_action cbe instance_id "RESET" region).2 =
        ["STOP", "START"] ∧
      jsonField (compute_instance_action cbe instance_id "RESET" region).1 "status" =
        some (Json.str "Action initiated")) ∧
    (∀ (cbe : ComputeBackend) (instance_id : String) (region : Option String)
        (r : String) (inst : Instance),
      resolveRegion region instance_id = some r →
      cbe.getInstance r instance_id = Except.ok inst →
      inst.lifecycle_state = "STOPPED" →
      cbe.instanceAction r instance_id "START" = Except.ok () →
      (compute_instance_action cbe instance_id "RESET" region).2 =
        [BackendEvent.getInstance r instance_id,
         BackendEvent.instanceAction r instance_id "START"] ∧
      issuedActions (compute_instance_action cbe instance_id "RESET" region).2 =
        ["START"] ∧
      jsonField (compute_instance_action cbe instance_id "RESET" region).1 "status" =
        some (Json.str "Action initiated")) := by
  constructor
  · intro cbe instance_id region r inst hres hget hstate hstop hstart
    have hup : pyUpper "RESET" = "RESET" := rfl
    unfold compute_instance_action
    rw [hres]
    simp only [hup, hget, hstate, hstop, hstart, valid_actions]
    simp +decide [jsonField, issuedActions, List.lookup]
  · intro cbe instance_id region r inst hres hget hstate hstart
    have hup : pyUpper "RESET" = "RESET" := rfl
    unfold compute_instance_action
    rw [hres]
    simp only [hup, hget, hstate, hstart, valid_actions]
    simp +decide [jsonField, issuedActions, List.lookup]

/-- Closed witness for `reset_running_stop_then_start` at concrete backends:
instance in RUNNING (resp. STOPPED) state, region inferred from
`ocid1.instance.oc1.iad.abc123`. -/
theorem reset_running_stop_then_start_witness :
    ((compute_instance_action (demoBackend "RUNNING")
        "ocid1.instance.oc1.iad.abc123" "RESET" none).2 =
      [BackendEvent.getInstance "iad" "ocid1.instance.oc1.iad.abc123",
       BackendEvent.instanceAction "iad" "ocid1.instance.oc1.iad.abc123" "STOP",
       BackendEvent.instanceAction "iad" "ocid1.instance.oc1.iad.abc123" "START"] ∧
     issuedActions (compute_instance_action (demoBackend "RUNNING")
        "ocid1.instance.oc1.iad.abc123" "RESET" none).2 = ["STOP", "START"] ∧
     jsonField (compute_instance_action (demoBackend "RUNNING")
        "ocid1.instance.oc1.iad.abc123" "RESET" none).1 "status" =
       some (Json.str "Action initiated")) ∧
    ((compute_instance_action (demoBackend "STOPPED")
        "ocid1.instance.oc1.iad.abc123" "RESET" none).2 =
      [BackendEvent.getInstance "iad" "ocid1.instance.oc1.iad.abc123",
       BackendEvent.instanceAction "iad" "ocid1.instance.oc1.iad.abc123" "START"] ∧
     issuedActions (compute_instance_action (demoBackend "STOPPED")
        "ocid1.instance.oc1.iad.abc123" "RESET" none).2 = ["START"] ∧
     jsonField (compute_instance_action (demoBackend "STOPPED")
        "ocid1.instance.oc1.iad.abc123" "RESET" none).1 "status" =
       some (Json.str "Action initiated")) :=
  ⟨reset_running_stop_then_start.1 (demoBackend "RUNNING")
      "ocid1.instance.oc1.iad.abc123" none "iad" (demoInstance "RUNNING")
      rfl rfl rfl rfl rfl,
   reset_running_stop_then_start.2 (demoBackend "STOPPED")
      "ocid1.instance.oc1.iad.abc123" none "iad" (demoInstance "STOPPED")
      rfl rfl rfl rfl⟩

/-- C2: for observed state STOPPED and action START, exactly one
lifecycle-action call (START) is dispatched; for observed state RUNNING and
action STOP, exactly one lifecycle-action call (STOP) is dispatched; both
replies carry status "Action initiated". -/
theorem start_stop_single_dispatch :
    (∀ (cbe : ComputeBackend) (instance_id : String) (region : Option String)
        (r : String) (inst : Instance),
      resolveRegion region instance_id = some r →
      cbe.getInstance r instance_id = Except.ok inst →
      inst.lifecycle_state = "STOPPED" →
      cbe.instanceAction r instance_id "START" = Except.ok () →
      (compute_instance_action cbe instance_id "START" region).2 =
        [BackendEvent.getInstance r instance_id,
         BackendEvent.instanceAction r instance_id "START"] ∧
      issuedActions (compute_instance_action cbe instance_id "START" region).2 =
        ["START"] ∧
      jsonField (compute_instance_action cbe instance_id "START" region).1 "status" =
        some (Json.str "Action initiated")) ∧
    (∀ (cbe : ComputeBackend) (instance_id : String) (region : Option String)
        (r : String) (inst : Instance),
      resolveRegion region instance_id = some r →
      cbe.getInstance r instance_id = Except.ok inst →
      inst.lifecycle_state = "RUNNING" →
      cbe.instanceAction r instance_id "STOP" = Except.ok () →
      (compute_instance_action cbe instance_id "STOP" region).2 =
        [BackendEvent.getInstance r instance_id,
         BackendEvent.instanceAction r instance_id "STOP"] ∧
      issuedActions (compute_instance_action cbe instance_id "STOP" region).2 =
        ["STOP"] ∧
      jsonField (compute_instance_action cbe instance_id "STOP" region).1 "status" =
        some (Json.str "Action initiated")) := by
  constructor
  · intro cbe instance_id region r inst hres hget hstate hstart
    have hup : pyUpper "START" = "START" := rfl
    unfold compute_instance_action
    rw [hres]
    simp only [hup, hget, hstate, hstart, valid_actions]
    simp +decide [jsonField, issuedActions, List.lookup]
  · intro cbe instance_id region r inst hres hget hstate hstop
    have hup : pyUpper "STOP" = "STOP" := rfl
    unfold compute_instance_action
    rw [hres]
    simp only [hup, hget, hstate, hstop, valid_actions]
    simp +decide [jsonField, issuedActions, List.lookup]

/-- Closed witness for `start_stop_single_dispatch` at concrete backends. -/
theorem start_stop_single_dispatch_witness :
    ((compute_instance_action (demoBackend "STOPPED")
        "ocid1.instance.oc1.iad.abc123" "START" none).2 =
      [BackendEvent.getInstance "iad" "ocid1.instance.oc1.iad.abc123",
       BackendEvent.instanceAction "iad" "ocid1.instance.oc1.iad.abc123" "START"] ∧
     issuedActions (compute_instance_action (demoBackend "STOPPED")
        "ocid1.instance.oc1.iad.abc123" "START" none).2 = ["START"] ∧
     jsonField (compute_instance_action (demoBackend "STOPPED")
        "ocid1.instance.oc1.iad.abc123" "START" none).1 "status" =
       some (Json.str "Action initiated")) ∧
    ((compute_instance_action (demoBackend "RUNNING")
        "ocid1.instance.oc1.iad.abc123" "STOP" none).2 =
      [BackendEvent.getInstance "iad" "ocid1.instance.oc1.iad.abc123",
       BackendEvent.instanceAction "iad" "ocid1.instance.oc1.iad.abc123" "STOP"] ∧
     issuedActions (compute_instance_action (demoBackend "RUNNING")
        "ocid1.instance.oc1.iad.abc123" "STOP" none).2 = ["STOP"] ∧
     jsonField (compute_instance_action (demoBackend "RUNNING")
        "ocid1.instance.oc1.iad.abc123" "STOP" none).1 "status" =
       some (Json.str "Action initiated")) :=
  ⟨start_stop_single_dispatch.1 (demoBackend "STOPPED")
      "ocid1.instance.oc1.iad.abc123" none "iad" (demoInstance "STOPPED")
      rfl rfl rfl rfl,
   start_stop_single_dispatch.2 (demoBackend "RUNNING")
      "ocid1.instance.oc1.iad.abc123" none "iad" (demoInstance "RUNNING")
      rfl rfl rfl rfl⟩

/-- C3: for action START when the observed state is anything other than
STOPPED (so any transitional state, and also RUNNING), and for action STOP
when the observed state is anything other than RUNNING (including STOPPED),
the reply carries status "No action needed" and zero lifecycle-action calls
are dispatched: the trace holds only the lifecycle-state query. -/
theorem start_stop_noop_states :
    (∀ (cbe : ComputeBackend) (instance_id : String) (region : Option String)
        (r : String) (inst : Instance),
      resolveRegion region instance_id = some r →
      cbe.getInstance r instance_id = Except.ok inst →
      inst.lifecycle_state ≠ "STOPPED" →
      (compute_instance_action cbe instance_id "START" region).2 =
        [BackendEvent.getInstance r instance_id] ∧
      issuedActions (compute_instance_action cbe instance_id "START" region).2 = [] ∧
      jsonField (compute_instance_action cbe instance_id "START" region).1 "status" =
        some (Json.str "No action needed")) ∧
    (∀ (cbe : ComputeBackend) (instance_id : String) (region : Option String)
        (r : String) (inst : Instance),
      resolveRegion region instance_id = some r →
      cbe.getInstance r instance_id = Except.ok inst →
      inst.lifecycle_state ≠ "RUNNING" →
      (compute_instance_action cbe instance_id "STOP" region).2 =
        [BackendEvent.getInstance r instance_id] ∧
      issuedActions (compute_instance_action cbe instance_id "STOP" region).2 = [] ∧
      jsonField (compute_instance_action cbe instance_id "STOP" region).1 "status" =
        some (Json.str "No action needed")) := by
  constructor
  · intro cbe instance_id region r inst hres hget hns
    have hup : pyUpper "START" = "START" := rfl
    unfold compute_instance_action
    rw [hres]
    simp only [hup, hget, valid_actions]
    simp +decide [hns, jsonField, issuedActions, List.lookup]
  · intro cbe instance_id region r inst hres hget hns
    have hup : pyUpper "STOP" = "STOP" := rfl
    unfold compute_instance_action
    rw [hres]
    simp only [hup, hget, valid_actions]
    simp +decide [hns, jsonField, issuedActions, List.lookup]

/-- Closed witness for `start_stop_noop_states`: an instance observed in
transitional state PROVISIONING for START, and in state STOPPED for STOP. -/
theorem start_stop_noop_states_witness :
    ((compute_instance_action (demoBackend "PROVISIONING")
        "ocid1.instance.oc1.iad.abc123" "START" none).2 =
      [BackendEvent.getInstance "iad" "ocid1.instance.oc1.iad.abc123"] ∧
     issuedActions (compute_instance_action (demoBackend "PROVISIONING")
        "ocid1.instance.oc1.iad.abc123" "START" none).2 = [] ∧
     jsonField (compute_instance_action (demoBackend "PROVISIONING")
        "ocid1.instance.oc1.iad.abc123" "START" none).1 "status" =
       some (Json.str "No action needed")) ∧
    ((compute_instance_action (demoBackend "STOPPED")
        "ocid1.instance.oc1.iad.abc123" "STOP" none).2 =
      [BackendEvent.getInstance "iad" "ocid1.instance.oc1.iad.abc123"] ∧
     issuedActions (compute_instance_action (demoBackend "STOPPED")
        "ocid1.instance.oc1.iad.abc123" "STOP" none).2 = [] ∧
     jsonField (compute_instance_action (demoBackend "STOPPED")
        "ocid1.instance.oc1.iad.abc123" "STOP" none).1 "status" =
       some (Json.str "No action needed")) :=
  ⟨start_stop_noop_states.1 (demoBackend "PROVISIONING")
      "ocid1.instance.oc1.iad.abc123" none "iad" (demoInstance "PROVISIONING")
      rfl rfl (by decide),
   start_stop_noop_states.2 (demoBackend "STOPPED")
      "ocid1.instance.oc1.iad.abc123" none "iad" (demoInstance "STOPPED")
      rfl rfl (by decide)⟩

/-- C4: for action RESET when the observed state is neither RUNNING nor
STOPPED, zero lifecycle-action calls are dispatched (the trace holds only
the lifecycle-state query) and the reply carries status "Cannot reset". -/
theorem reset_invalid_state_no_calls
    (cbe : ComputeBackend) (instance_id : String) (region : Option String)
    (r : String) (inst : Instance)
    (hres : resolveRegion region instance_id = some r)
    (hget : cbe.getInstance r instance_id = Except.ok inst)
    (hnr : inst.lifecycle_state ≠ "RUNNING")
    (hns : inst.lifecycle_state ≠ "STOPPED") :
    (compute_instance_action cbe instance_id "RESET" region).2 =
      [BackendEvent.getInstance r instance_id] ∧
    issuedActions (compute_instance_action cbe instance_id "RESET" region).2 = [] ∧
    jsonField (compute_instance_action cbe instance_id "RESET" region).1 "status" =
      some (Json.str "Cannot reset") := by
  have hup : pyUpper "RESET" = "RESET" := rfl
  unfold compute_instance_action
  rw [hres]
  simp only [hup, hget, valid_actions]
  simp +decide [hnr, hns, jsonField, issuedActions, List.lookup]

/-- Closed witness for `reset_invalid_state_no_calls`: an instance observed
in transitional state PROVISIONING. -/
theorem reset_invalid_state_no_calls_witness :
    (compute_instance_action (demoBackend "PROVISIONING")
        "ocid1.instance.oc1.iad.abc123" "RESET" none).2 =
      [BackendEvent.getInstance "iad" "ocid1.instance.oc1.iad.abc123"] ∧
    issuedActions (compute_instance_action (demoBackend "PROVISIONING")
        "ocid1.instance.oc1.iad.abc123" "RESET" none).2 = [] ∧
    jsonField (compute_instance_action (demoBackend "PROVISIONING")
        "ocid1.instance.oc1.iad.abc123" "RESET" none).1 "status" =
      some (Json.str "Cannot reset") :=
  reset_invalid_state_no_calls (demoBackend "PROVISIONING")
    "ocid1.instance.oc1.iad.abc123" none "iad" (demoInstance "PROVISIONING")
    rfl rfl (by decide) (by decide)

/-- C6: `compute_instance_action` is case-insensitive in its action argument
(an invocation behaves identically to the invocation with the action
normalized to uppercase), and once the region has been resolved, an action
whose uppercase form is not in {START, STOP, RESET} fails with the
InvalidAction error listing the valid set, dispatching no backend call. -/
theorem action_case_insensitive_invalid_listed :
    (∀ (cbe : ComputeBackend) (instance_id : String) (region : Option String)
        (s : String),
      compute_instance_action cbe instance_id s region =
        compute_instance_action cbe instance_id (pyUpper s) region) ∧
    (∀ (cbe : ComputeBackend) (instance_id : String) (region : Option String)
        (s : String) (r : String),
      resolveRegion region instance_id = some r →
      pyUpper s ∉ valid_actions →
      compute_instance_action cbe instance_id s region =
        (mkError ("Invalid action '" ++ pyUpper s ++
          "'. Valid actions are: START, STOP, RESET"), [])) := by
  constructor
  · intro cbe instance_id region s
    unfold compute_instance_action
    rw [pyUpper_idem]
  · intro cbe instance_id region s r hres hinv
    have hic : String.intercalate ", " valid_actions = "START, STOP, RESET" := rfl
    unfold compute_instance_action
    rw [hres]
    simp only [hinv, if_false, hic]
    simp [String.append_assoc]

/-- Closed witness for `action_case_insensitive_invalid_listed`: "Start" is
equivalent to "START", and "launch" fails with the InvalidAction message. -/
theorem action_case_insensitive_invalid_listed_witness :
    (compute_instance_action (demoBackend "STOPPED")
        "ocid1.instance.oc1.iad.abc123" "Start" none =
      compute_instance_action (demoBackend "STOPPED")
        "ocid1.instance.oc1.iad.abc123" "START" none) ∧
    (compute_instance_action (demoBackend "STOPPED")
        "ocid1.instance.oc1.iad.abc123" "launch" (some "iad") =
      (mkError "Invalid action 'LAUNCH'. Valid actions are: START, STOP, RESET", [])) :=
  ⟨action_case_insensitive_invalid_listed.1 (demoBackend "STOPPED")
      "ocid1.instance.oc1.iad.abc123" none "Start",
   action_case_insensitive_invalid_listed.2 (demoBackend "STOPPED")
      "ocid1.instance.oc1.iad.abc123" (some "iad") "launch" "iad" rfl (by decide)⟩

/-- C7: when the region argument is omitted, the region is the 4th
dot-delimited segment of `instance_id` — the invocation behaves identically
to one with that segment passed explicitly; when `instance_id` has fewer
than 4 dot-delimited segments and no region is supplied, the invocation
fails with the InvalidIdentifierFormat error and dispatches no backend
call. -/
theorem region_inferred_from_instance_id :
    (∀ (cbe : ComputeBackend) (instance_id : String) (action : String)
        (r : String),
      (pySplit instance_id '.')[3]? = some r →
      compute_instance_action cbe instance_id action none =
        compute_instance_action cbe instance_id action (some r)) ∧
    (∀ (cbe : ComputeBackend) (instance_id : String) (action : String),
      (pySplit instance_id '.')[3]? = none →
      compute_instance_action cbe instance_id action none =
        (mkError "Invalid instance_id format. Cannot extract region.", [])) := by
  constructor
  · intro cbe instance_id action r h
    by_cases hr : r = ""
    · subst hr
      simp [compute_instance_action, resolveRegion, h]
    · simp [compute_instance_action, resolveRegion, h, hr]
  · intro cbe instance_id action h
    simp [compute_instance_action, resolveRegion, h]

/-- Closed witness for `region_inferred_from_instance_id`:
`"ocid1.instance.oc1.iad.xyz"` infers region "iad";
`"badid"` with no region fails with the format error. -/
theorem region_inferred_from_instance_id_witness :
    (compute_instance_action (demoBackend "RUNNING")
        "ocid1.instance.oc1.iad.xyz" "STOP" none =
      compute_instance_action (demoBackend "RUNNING")
        "ocid1.instance.oc1.iad.xyz" "STOP" (some "iad")) ∧
    (compute_instance_action (demoBackend "RUNNING") "badid" "STOP" none =
      (mkError "Invalid instance_id format. Cannot extract region.", [])) :=
  ⟨region_inferred_from_instance_id.1 (demoBackend "RUNNING")
      "ocid1.instance.oc1.iad.xyz" "STOP" "iad" rfl,
   region_inferred_from_instance_id.2 (demoBackend "RUNNING") "badid" "STOP" rfl⟩

/-- C8: in every invocation of `compute_instance_action`, if any
lifecycle-action call is dispatched then the trace starts with the
`get_instance` lifecycle-state query (so the observed state is re-queried
from the backend before any dispatch, never invented or cached), and
whenever the reply carries a `previous_state` field, its value is exactly
the lifecycle state returned by that query. -/
theorem state_queried_before_dispatch (cbe : ComputeBackend)
    (instance_id action : String) (region : Option String) :
    ((∃ r2 i a, BackendEvent.instanceAction r2 i a ∈
        (compute_instance_action cbe instance_id action region).2) →
      ∃ r, resolveRegion region instance_id = some r ∧
        ((compute_instance_action cbe instance_id action region).2).head? =
          some (BackendEvent.getInstance r instance_id)) ∧
    (∀ s, jsonField (compute_instance_action cbe instance_id action region).1
        "previous_state" = some (Json.str s) →
      ∃ r inst, resolveRegion region instance_id = some r ∧
        cbe.getInstance r instance_id = Except.ok inst ∧
        inst.lifecycle_state = s) := by
  cases hres : resolveRegion region instance_id with
  | none =>
    constructor
    · rintro ⟨r2, i, a, hm⟩
      simp [compute_instance_action, hres] at hm
    · intro s hs
      simp +decide [compute_instance_action, hres, mkError, jsonField, List.lookup] at hs
  | some r =>
    by_cases hv : pyUpper action ∈ valid_actions
    · constructor
      · intro _
        refine ⟨r, rfl, ?_⟩
        simp only [compute_instance_action, hres]
        rw [if_pos hv]
        repeat' split
        all_goals rfl
      · intro s hs
        simp only [compute_instance_action, hres] at hs
        rw [if_pos hv] at hs
        have hps : ∀ (nm st : String) (sfx : List (String × Json)),
            List.lookup "previous_state"
              ([("instance_id", Json.str instance_id),
                ("instance_name", Json.str nm),
                ("action_requested", Json.str (pyUpper action)),
                ("previous_state", Json.str st)] ++ sfx) =
              some (Json.str st) := fun _ _ _ => rfl
        have hps0 : ∀ (nm st : String),
            List.lookup "previous_state"
              [("instance_id", Json.str instance_id),
               ("instance_name", Json.str nm),
               ("action_requested", Json.str (pyUpper action)),
               ("previous_state", Json.str st)] =
              some (Json.str st) := fun _ _ => rfl
        repeat' split at hs
        all_goals simp only [jsonField, actionFailedJson, mkError] at hs
        all_goals
          first
          | exact Option.noConfusion hs
          | (rw [hps] at hs
             injection hs with h1
             injection h1 with h2
             exact ⟨r, _, rfl, by assumption, h2⟩)
          | (rw [hps0] at hs
             injection hs with h1
             injection h1 with h2
             exact ⟨r, _, rfl, by assumption, h2⟩)
    · constructor
      · rintro ⟨r2, i, a, hm⟩
        simp [compute_instance_action, hres, hv] at hm
      · intro s hs
        simp +decide [compute_instance_action, hres, hv, mkError, jsonField,
          List.lookup] at hs

/-- Closed witness for `state_queried_before_dispatch`: a STOP on a RUNNING
instance dispatches a lifecycle call, the trace starts with the state query,
and the reported `previous_state` "RUNNING" is the queried state. -/
theorem state_queried_before_dispatch_witness :
    (∃ r2 i a, BackendEvent.instanceAction r2 i a ∈
        (compute_instance_action (demoBackend "RUNNING")
          "ocid1.instance.oc1.iad.abc123" "STOP" none).2) ∧
    (∃ r, resolveRegion none "ocid1.instance.oc1.iad.abc123" = some r ∧
      ((compute_instance_action (demoBackend "RUNNING")
          "ocid1.instance.oc1.iad.abc123" "STOP" none).2).head? =
        some (BackendEvent.getInstance r "ocid1.instance.oc1.iad.abc123")) ∧
    (∃ r inst, resolveRegion none "ocid1.instance.oc1.iad.abc123" = some r ∧
      (demoBackend "RUNNING").getInstance r "ocid1.instance.oc1.iad.abc123" =
        Except.ok inst ∧
      inst.lifecycle_state = "RUNNING") :=
  ⟨⟨"iad", "ocid1.instance.oc1.iad.abc123", "STOP", by decide⟩,
   (state_queried_before_dispatch (demoBackend "RUNNING")
      "ocid1.instance.oc1.iad.abc123" "STOP" none).1
     ⟨"iad", "ocid1.instance.oc1.iad.abc123", "STOP", by decide⟩,
   (state_queried_before_dispatch (demoBackend "RUNNING")
      "ocid1.instance.oc1.iad.abc123" "STOP" none).2 "RUNNING" rfl⟩

/-- C9: a successful `get_all_compartments` yields all paginated
compartments followed by the root (tenancy) compartment, fetched via
`get_compartment` and appended as the last element; `list_compartments`
serializes exactly that list; and name resolution therefore also considers
the root: when no paginated compartment matches, a name matching the root's
(case-insensitively) resolves to the root. -/
theorem root_compartment_included
    (be : IdentityBackend) (tenancy_id : String)
    (pages : List (List Compartment)) (root : Compartment)
    (hp : be.pages = Except.ok pages)
    (hg : be.getCompartment tenancy_id = Except.ok root) :
    get_all_compartments be tenancy_id =
      Except.ok (gatherPages pages ++ [root]) ∧
    (gatherPages pages ++ [root]).getLast? = some root ∧
    list_compartments be tenancy_id =
      Json.arr ((gatherPages pages ++ [root]).map compartmentJson) ∧
    (∀ name : String,
      (∀ c ∈ gatherPages pages, ¬(pyLower c.name == pyLower name)) →
      (pyLower root.name == pyLower name) →
      get_compartment_by_name be tenancy_id name = Except.ok (some root)) := by
  have hall : get_all_compartments be tenancy_id =
      Except.ok (gatherPages pages ++ [root]) := by
    simp [get_all_compartments, hp, hg, bind, Except.bind, pure, Except.pure,
      Except.instMonad]
  refine ⟨hall, List.getLast?_concat _, ?_, ?_⟩
  · simp [list_compartments, hall]
  · intro name hnone hroot
    have hfindnil : (gatherPages pages).find?
        (fun c => pyLower c.name == pyLower name) = none :=
      List.find?_eq_none.mpr hnone
    simp [get_compartment_by_name, hall, List.find?_append, hfindnil, hroot]

/-- Closed witness for `root_compartment_included` at the demo identity
backend: the root "RootTenancy" is last, and lookup of "roottenancy"
resolves to it. -/
theorem root_compartment_included_witness :
    get_all_compartments demoIdentity "ocid1.tenancy.oc1..t1" =
      Except.ok (gatherPages [[demoCompartment], []] ++ [demoRoot]) ∧
    (gatherPages [[demoCompartment], []] ++ [demoRoot]).getLast? = some demoRoot ∧
    list_compartments demoIdentity "ocid1.tenancy.oc1..t1" =
      Json.arr ((gatherPages [[demoCompartment], []] ++ [demoRoot]).map compartmentJson) ∧
    get_compartment_by_name demoIdentity "ocid1.tenancy.oc1..t1" "roottenancy" =
      Except.ok (some demoRoot) :=
  have h := root_compartment_included demoIdentity "ocid1.tenancy.oc1..t1"
    [[demoCompartment], []] demoRoot rfl rfl
  ⟨h.1, h.2.1, h.2.2.1, h.2.2.2 "roottenancy" (by decide) (by decide)⟩

/-- C10: name lookups are case-insensitive.  `get_compartment_by_name`
returns the first compartment whose name equals the argument ignoring case
and is invariant under changing the case of its argument;
`get_compute_instance_by_name` hands the first instance whose display name
matches ignoring case to `get_compute_instance`, and changing the case of
the instance-name argument selects the same instance and produces the same
reply. -/
theorem name_lookup_case_insensitive :
    (∀ (be : IdentityBackend) (tenancy_id name : String)
        (compartments : List Compartment),
      get_all_compartments be tenancy_id = Except.ok compartments →
      get_compartment_by_name be tenancy_id name =
        Except.ok (compartments.find? fun c => pyLower c.name == pyLower name)) ∧
    (∀ (be : IdentityBackend) (tenancy_id name1 name2 : String),
      pyLower name1 = pyLower name2 →
      get_compartment_by_name be tenancy_id name1 =
        get_compartment_by_name be tenancy_id name2) ∧
    (∀ (ibe : IdentityBackend) (cbe : ComputeBackend)
        (tenancy_id region_id instance_name compartment_name : String)
        (region : Option String) (comp : Compartment)
        (instances : List Instance) (inst : Instance),
      get_compartment_by_name ibe tenancy_id compartment_name =
        Except.ok (some comp) →
      cbe.listInstances (clientRegion region region_id) comp.id =
        Except.ok instances →
      instances.find? (fun i => pyLower i.display_name == pyLower instance_name) =
        some inst →
      get_compute_instance_by_name ibe cbe tenancy_id region_id
          instance_name compartment_name region =
        get_compute_instance cbe region_id inst.id region) ∧
    (∀ (ibe : IdentityBackend) (cbe : ComputeBackend)
        (tenancy_id region_id iname1 iname2 compartment_name : String)
        (region : Option String) (comp : Compartment)
        (instances : List Instance) (inst : Instance),
      pyLower iname1 = pyLower iname2 →
      get_compartment_by_name ibe tenancy_id compartment_name =
        Except.ok (some comp) →
      cbe.listInstances (clientRegion region region_id) comp.id =
        Except.ok instances →
      instances.find? (fun i => pyLower i.display_name == pyLower iname1) =
        some inst →
      get_compute_instance_by_name ibe cbe tenancy_id region_id
          iname1 compartment_name region =
        get_compute_instance_by_name ibe cbe tenancy_id region_id
          iname2 compartment_name region) := by
  have hfind : ∀ (instances : List Instance) (iname1 iname2 : String),
      pyLower iname1 = pyLower iname2 →
      instances.find? (fun i => pyLower i.display_name == pyLower iname1) =
        instances.find? (fun i => pyLower i.display_name == pyLower iname2) := by
    intro instances iname1 iname2 h
    rw [h]
  have hby : ∀ (ibe : IdentityBackend) (cbe : ComputeBackend)
      (tenancy_id region_id instance_name compartment_name : String)
      (region : Option String) (comp : Compartment)
      (instances : List Instance) (inst : Instance),
      get_compartment_by_name ibe tenancy_id compartment_name =
        Except.ok (some comp) →
      cbe.listInstances (clientRegion region region_id) comp.id =
        Except.ok instances →
      instances.find? (fun i => pyLower i.display_name == pyLower instance_name) =
        some inst →
      get_compute_instance_by_name ibe cbe tenancy_id region_id
          instance_name compartment_name region =
        get_compute_instance cbe region_id inst.id region := by
    intro ibe cbe tenancy_id region_id instance_name compartment_name region
      comp instances inst hcomp hlist hfound
    simp [get_compute_instance_by_name, hcomp, hlist, hfound]
  refine ⟨?_, ?_, hby, ?_⟩
  · intro be tenancy_id name compartments hall
    simp [get_compartment_by_name, hall]
  · intro be tenancy_id name1 name2 h
    unfold get_compartment_by_name
    rw [h]
  · intro ibe cbe tenancy_id region_id iname1 iname2 compartment_name region
      comp instances inst h hcomp hlist hfound
    rw [hby ibe cbe tenancy_id region_id iname1 compartment_name region
          comp instances inst hcomp hlist hfound,
        hby ibe cbe tenancy_id region_id iname2 compartment_name region
          comp instances inst hcomp hlist
          ((hfind instances iname2 iname1 h.symm).trans hfound)]

/-- Closed witness for `name_lookup_case_insensitive` at the demo backends:
"dev-team" and "DEV-TEAM" resolve to the same compartment, and the demo
instance is found by "DEMO-INSTANCE". -/
theorem name_lookup_case_insensitive_witness :
    get_compartment_by_name demoIdentity "t" "dev-team" =
      Except.ok ((gatherPages [[demoCompartment], []] ++ [demoRoot]).find?
        fun c => pyLower c.name == pyLower "dev-team") ∧
    get_compartment_by_name demoIdentity "t" "dev-team" =
      get_compartment_by_name demoIdentity "t" "DEV-TEAM" ∧
    get_compute_instance_by_name demoIdentity (demoBackend "RUNNING")
        "t" "us-ashburn-1" "DEMO-INSTANCE" "dev-team" none =
      get_compute_instance (demoBackend "RUNNING") "us-ashburn-1"
        (demoInstance "RUNNING").id none ∧
    get_compute_instance_by_name demoIdentity (demoBackend "RUNNING")
        "t" "us-ashburn-1" "DEMO-INSTANCE" "dev-team" none =
      get_compute_instance_by_name demoIdentity (demoBackend "RUNNING")
        "t" "us-ashburn-1" "demo-instance" "dev-team" none :=
  ⟨name_lookup_case_insensitive.1 demoIdentity "t" "dev-team"
      (gatherPages [[demoCompartment], []] ++ [demoRoot]) rfl,
   name_lookup_case_insensitive.2.1 demoIdentity "t" "dev-team" "DEV-TEAM" rfl,
   name_lookup_case_insensitive.2.2.1 demoIdentity (demoBackend "RUNNING")
      "t" "us-ashburn-1" "DEMO-INSTANCE" "dev-team" none demoCompartment
      [demoInstance "RUNNING"] (demoInstance "RUNNING") rfl rfl rfl,
   name_lookup_case_insensitive.2.2.2 demoIdentity (demoBackend "RUNNING")
      "t" "us-ashburn-1" "DEMO-INSTANCE" "demo-instance" "dev-team" none
      demoCompartment [demoInstance "RUNNING"] (demoInstance "RUNNING")
      rfl rfl rfl rfl⟩

/-- `get_compute_instance` replies in the uniform shape on every path. -/
theorem validOut_get_compute_instance (cbe : ComputeBackend)
    (region_id instance_id : String) (region : Option String) :
    validToolOutput (get_compute_instance cbe region_id instance_id region) := by
  unfold get_compute_instance
  split
  · exact Or.inl ⟨_, rfl⟩
  · exact Or.inr (Or.inr ⟨_, rfl, rfl⟩)

/-- C5: every tool operation, on every input and backend behavior, returns
a reply in the uniform JSON contract: failures become the `{"error": msg}`
object (nothing escapes the operation boundary, since the operations are
total functions into `Json`), and success replies are a JSON array or a
JSON object without an "error" key. -/
theorem tool_replies_uniform_json :
    (∀ (be : IdentityBackend) (tenancy_id : String),
      validToolOutput (list_compartments be tenancy_id)) ∧
    (∀ (ibe : IdentityBackend) (cbe : ComputeBackend)
        (tenancy_id region_id compartment_name : String) (region : Option String),
      validToolOutput (list_compute_instances ibe cbe tenancy_id region_id
        compartment_name region)) ∧
    (∀ (cbe : ComputeBackend) (region_id instance_id : String)
        (region : Option String),
      validToolOutput (get_compute_instance cbe region_id instance_id region)) ∧
    (∀ (ibe : IdentityBackend) (cbe : ComputeBackend)
        (tenancy_id region_id instance_name compartment_name : String)
        (region : Option String),
      validToolOutput (get_compute_instance_by_name ibe cbe tenancy_id
        region_id instance_name compartment_name region)) ∧
    (∀ (cbe : ComputeBackend) (instance_id action : String)
        (region : Option String),
      validToolOutput (compute_instance_action cbe instance_id action region).1) := by
  refine ⟨?_, ?_, validOut_get_compute_instance, ?_, ?_⟩
  · intro be tenancy_id
    unfold list_compartments
    split
    · exact Or.inr (Or.inl ⟨_, rfl⟩)
    · exact Or.inl ⟨_, rfl⟩
  · intro ibe cbe tenancy_id region_id compartment_name region
    unfold list_compute_instances
    repeat' split
    all_goals
      first
      | exact Or.inl ⟨_, rfl⟩
      | exact Or.inr (Or.inl ⟨_, rfl⟩)
  · intro ibe cbe tenancy_id region_id instance_name compartment_name region
    unfold get_compute_instance_by_name
    repeat' split
    all_goals
      first
      | exact Or.inl ⟨_, rfl⟩
      | exact validOut_get_compute_instance cbe region_id _ region
  · intro cbe instance_id action region
    simp only [compute_instance_action]
    repeat' split
    all_goals
      first
      | exact Or.inl ⟨_, rfl⟩
      | exact Or.inr (Or.inr ⟨_, rfl, rfl⟩)
